import Mathlib

/-!
Verification of the `yonder` night-sky animation engine.

This file gives a shallow embedding, over `ℚ`, of the pure interpolation
utilities in `src/lib/utils.ts` and of the state-evolving parts of the
animation engine class in `src/lib/meteor-animation.ts` (plus, for
comparison, the spawn-rate formula of the richer engine variant kept in
`reference/meteor-animation.ts`).  JavaScript numbers are IEEE doubles;
every double is a rational, and none of the properties proved here are
about floating-point rounding, so arithmetic is modelled exactly in `ℚ`.
The only JavaScript operations that do not land in `ℚ` are `Math.pow` and
`Math.sqrt` (the latter entering through `Math.hypot` and through the
`cos/sin ∘ atan2` direction normalisation) — the development is
parameterised over those (structure `JsMath`), and every theorem
quantifies over the parameter, so each proved statement holds in
particular for the true transcendental functions.  `Math.PI` is a concrete
double, hence a concrete rational, and is embedded exactly.

`Math.random()` is modelled by an explicit stream `r : ℕ → ℚ` of draws
together with a cursor index; every generator consumes draws in exactly
the evaluation order of the JavaScript source (conditional expressions
consume draws lazily, as `?:` and `&&` do).

Canvas work (gradients, strokes, blits) does not change engine state; the
embedding models the engine-state evolution of each public method, and for
`render` it also identifies the set of meteors drawn in the frame: the
render loop draws exactly the meteors it keeps alive (`updateMeteors`).
-/

namespace Yonder

/-! ### JavaScript numeric primitives -/

/-- Truncation toward zero, the rounding used by the JavaScript `%` operator. -/
def jtrunc (q : ℚ) : ℤ := if 0 ≤ q then ⌊q⌋ else ⌈q⌉

/-- The JavaScript remainder operator `x % n`: `x - n * trunc (x / n)`;
the result carries the sign of the dividend. -/
def jsMod (x n : ℚ) : ℚ := x - n * jtrunc (x / n)

/-- Mathematical (floor-based) modulus; the target of the usual
`((x % n) + n) % n` normalisation idiom. -/
def fmod (x n : ℚ) : ℚ := x - n * ⌊x / n⌋

/-- JavaScript `Math.round`: round half toward positive infinity. -/
def jround (q : ℚ) : ℤ := ⌊q + 1/2⌋

/-- The constant `Math.PI` is the IEEE-754 double closest to π, an exact rational. -/
def jsPI : ℚ := 884279719003555 / 281474976710656

/-- The transcendental JavaScript math functions used by the engine, kept
abstract: `powf` is `Math.pow`, `sqrtf` is `Math.sqrt` (used via
`Math.hypot` and via `cos/sin ∘ atan2`, which normalise by the hypotenuse). -/
structure JsMath where
  powf : ℚ → ℚ → ℚ
  sqrtf : ℚ → ℚ

/-- Distance between two hues along the circle of circumference 360:
the smaller of the two arc lengths. -/
def circDist (u v : ℚ) : ℚ := min (fmod (u - v) 360) (fmod (v - u) 360)

/-! ### `src/lib/utils.ts`: scene configuration and interpolation -/

/-- The field `parentObjectType: "comet" | "asteroid"` — affects trail style. -/
inductive ParentObjectType where
  | comet
  | asteroid
deriving DecidableEq, Repr

/-- The field `velocityCategory: "slow" | "medium" | "swift"` — affects streak length. -/
inductive VelocityCategory where
  | slow
  | medium
  | swift
deriving DecidableEq, Repr

/-- The `MeteorConfig` interface of `src/lib/utils.ts`. -/
@[ext] structure MeteorConfig where
  velocityKmPerSec : ℚ
  zhr : ℚ
  radiantX : ℚ
  radiantY : ℚ
  colorHue : ℚ
  moonIllumination : ℚ
  moonPhaseName : String
  parentObjectType : ParentObjectType
  velocityCategory : VelocityCategory
  peakMonth : ℚ
  colorVariance : Option ℚ
deriving DecidableEq, Repr

/-- The function `lerp` from `src/lib/utils.ts` (also duplicated locally in
`src/lib/meteor-animation.ts`): `a + (b - a) * t`. -/
def lerp (a b t : ℚ) : ℚ := a + (b - a) * t

/-- The signed hue difference computed inside `lerpHue`:
`((b - a + 540) % 360) - 180` with the JavaScript `%`. -/
def hueDiff (a b : ℚ) : ℚ := jsMod (b - a + 540) 360 - 180

/-- The function `lerpHue` from `src/lib/utils.ts`: shortest-arc hue interpolation,
`(((a + diff * t) % 360) + 360) % 360` with the JavaScript `%`. -/
def lerpHue (a b t : ℚ) : ℚ :=
  jsMod (jsMod (a + hueDiff a b * t) 360 + 360) 360

/-- The function `lerpConfig` from `src/lib/utils.ts`: numbers blend linearly, hue
blends circularly, strings snap at `t = 0.5`, `peakMonth` is rounded,
`colorVariance` blends only when both sides are present. -/
def lerpConfig (configA configB : MeteorConfig) (t : ℚ) : MeteorConfig :=
  let snap := t < 1/2
  { velocityKmPerSec := lerp configA.velocityKmPerSec configB.velocityKmPerSec t
    zhr := lerp configA.zhr configB.zhr t
    radiantX := lerp configA.radiantX configB.radiantX t
    radiantY := lerp configA.radiantY configB.radiantY t
    colorHue := lerpHue configA.colorHue configB.colorHue t
    moonIllumination := lerp configA.moonIllumination configB.moonIllumination t
    moonPhaseName := if snap then configA.moonPhaseName else configB.moonPhaseName
    parentObjectType := if snap then configA.parentObjectType else configB.parentObjectType
    velocityCategory := if snap then configA.velocityCategory else configB.velocityCategory
    peakMonth := (jround (lerp configA.peakMonth configB.peakMonth t) : ℚ)
    colorVariance :=
      match configA.colorVariance, configB.colorVariance with
      | some va, some vb => some (lerp va vb t)
      | _, _ => if snap then configA.colorVariance else configB.colorVariance }

/-- The documented value ranges of a `MeteorConfig` (spec §3), together
with integrality of `peakMonth`. -/
def MeteorConfig.Valid (c : MeteorConfig) : Prop :=
  0 ≤ c.velocityKmPerSec ∧ 0 ≤ c.zhr ∧
  0 ≤ c.radiantX ∧ c.radiantX ≤ 1 ∧
  0 ≤ c.radiantY ∧ c.radiantY ≤ 1 ∧
  0 ≤ c.colorHue ∧ c.colorHue < 360 ∧
  0 ≤ c.moonIllumination ∧ c.moonIllumination ≤ 100 ∧
  1 ≤ c.peakMonth ∧ c.peakMonth ≤ 12 ∧
  ((⌊c.peakMonth⌋ : ℚ) = c.peakMonth)

instance (c : MeteorConfig) : Decidable c.Valid := by
  unfold MeteorConfig.Valid
  infer_instance

/-! ### `src/lib/meteor-animation.ts`: engine data -/

/-- The four season buckets. -/
inductive Season where
  | winter
  | spring
  | summer
  | fall
deriving DecidableEq, Repr

/-- The function `getSeason` from `src/lib/meteor-animation.ts`:
spring = months 3–5, summer = 6–8, fall = 9–10, winter otherwise. -/
def getSeason (month : ℚ) : Season :=
  if 3 ≤ month ∧ month ≤ 5 then Season.spring
  else if 6 ≤ month ∧ month ≤ 8 then Season.summer
  else if 9 ≤ month ∧ month ≤ 10 then Season.fall
  else Season.winter

/-- Star size classes, cached for texture lookup. -/
inductive SizeClass where
  | faint
  | medium
  | bright
  | prominent
deriving DecidableEq, Repr

/-- Star hue groups, cached for texture lookup. -/
inductive HueGroup where
  | white
  | warm
  | cool
  | yellow
deriving DecidableEq, Repr

/-- The `Star` interface of `src/lib/meteor-animation.ts`. -/
structure Star where
  x : ℚ
  y : ℚ
  brightness : ℚ
  radius : ℚ
  phase : ℚ
  twinkleSpeed : ℚ
  depth : ℚ
  hue : ℚ
  saturation : ℚ
  isProminent : Bool
  sizeClass : SizeClass
  hueGroup : HueGroup
deriving DecidableEq, Repr

/-- The `NebulaGlow` interface of `src/lib/meteor-animation.ts`. -/
structure NebulaGlow where
  x : ℚ
  y : ℚ
  radiusX : ℚ
  radiusY : ℚ
  hue : ℚ
  opacity : ℚ
deriving DecidableEq, Repr

/-- The `Meteor` interface of `src/lib/meteor-animation.ts`. -/
structure Meteor where
  x : ℚ
  y : ℚ
  dx : ℚ
  dy : ℚ
  speed : ℚ
  length : ℚ
  opacity : ℚ
  thickness : ℚ
  hue : ℚ
  isFireball : Bool
  life : ℚ
  maxLife : ℚ
  saturation : ℚ
deriving DecidableEq, Repr

/-- The function `getHueGroup` from `src/lib/meteor-animation.ts`. -/
def getHueGroup (star : Star) : HueGroup :=
  if star.saturation = 0 then HueGroup.white
  else if 25 ≤ star.hue ∧ star.hue < 45 then HueGroup.warm
  else if 45 ≤ star.hue ∧ star.hue < 75 then HueGroup.yellow
  else if 160 ≤ star.hue ∧ star.hue ≤ 250 then HueGroup.cool
  else HueGroup.white

/-- The function `getSizeClass` from `src/lib/meteor-animation.ts`. -/
def getSizeClass (star : Star) : SizeClass :=
  if star.isProminent then SizeClass.prominent
  else if (1:ℚ)/2 ≤ star.brightness then SizeClass.bright
  else if (1:ℚ)/5 ≤ star.brightness then SizeClass.medium
  else SizeClass.faint

/-! ### Procedural generation (random draws threaded explicitly) -/

/-- The helper `createStar(x, y)` from `src/lib/meteor-animation.ts`.  Consumes draws
of `r` starting at cursor `i` in source evaluation order; returns the star
and the next cursor. -/
def createStar (r : ℕ → ℚ) (i : ℕ) (x y : ℚ) : Star × ℕ :=
  -- ~45% of stars get a colour tint (lazy `&&`-style draw consumption)
  let tinted := r i < 0.45
  let hue : ℚ :=
    if tinted then
      let category := r (i+1)
      if category < 0.3 then 20 + r (i+2) * 25
      else if category < 0.55 then 200 + r (i+2) * 40
      else if category < 0.8 then 40 + r (i+2) * 20
      else 180 + r (i+2) * 30
    else 0
  let saturation : ℚ :=
    if tinted then
      let category := r (i+1)
      if category < 0.3 then 45 + r (i+3) * 35
      else if category < 0.55 then 50 + r (i+3) * 30
      else if category < 0.8 then 40 + r (i+3) * 30
      else 25 + r (i+3) * 25
    else 0
  let i₁ := if tinted then i + 4 else i + 1
  -- power-law brightness
  let roll := r i₁
  let brightness : ℚ :=
    if roll < 0.7 then 0.05 + r (i₁+1) * 0.15
    else if roll < 0.9 then 0.2 + r (i₁+1) * 0.3
    else if roll < 0.98 then 0.5 + r (i₁+1) * 0.3
    else 0.8 + r (i₁+1) * 0.2
  let radius : ℚ :=
    if roll < 0.7 then 0.2 + r (i₁+2) * 0.3
    else if roll < 0.9 then 0.4 + r (i₁+2) * 0.3
    else if roll < 0.98 then 0.6 + r (i₁+2) * 0.3
    else 0.9 + r (i₁+2) * 0.5
  let isProminent := ¬ (roll < 0.98)
  -- depth correlates loosely with size
  let depth : ℚ :=
    if isProminent then 0.7 + r (i₁+3) * 0.3
    else if radius < 0.5 then r (i₁+3) * 0.3
    else 0.2 + r (i₁+3) * 0.5
  let star0 : Star :=
    { x := max 0 (min 1 x)
      y := max 0 (min 1 y)
      brightness := brightness
      radius := radius
      phase := r (i₁+4) * jsPI * 2
      twinkleSpeed :=
        if r (i₁+5) < 0.15 then 1.5 + r (i₁+6) * 2.0 else 0.2 + r (i₁+6) * 0.5
      depth := depth
      hue := hue
      saturation := saturation
      isProminent := isProminent
      sizeClass := SizeClass.faint
      hueGroup := HueGroup.white }
  ({ star0 with sizeClass := getSizeClass star0, hueGroup := getHueGroup star0 },
    i₁ + 7)

/-- The base-population loop of `generateStars`: `count` calls of
`createStar(Math.random(), Math.random())`. -/
def genStarsAux (r : ℕ → ℚ) : ℕ → ℕ → List Star × ℕ
  | 0, i => ([], i)
  | n+1, i =>
    let x := r i
    let y := r (i+1)
    let (star, i₁) := createStar r (i+2) x y
    let (rest, i₂) := genStarsAux r n i₁
    (star :: rest, i₂)

/-- The Milky-Way density-boost pass of `generateStars`: each star with
`y ∈ [0.25, 0.45]` is duplicated with probability 0.35, jittered. -/
def milkyWayPass (r : ℕ → ℚ) : List Star → ℕ → List Star × ℕ
  | [], i => ([], i)
  | star :: rest, i =>
    if 0.25 ≤ star.y ∧ star.y ≤ 0.45 then
      if r i < 0.35 then
        let x := star.x + (r (i+1) - 0.5) * 0.03
        let y := star.y + (r (i+2) - 0.5) * 0.03
        let (dup, i₁) := createStar r (i+3) x y
        let (more, i₂) := milkyWayPass r rest i₁
        (dup :: more, i₂)
      else milkyWayPass r rest (i+1)
    else milkyWayPass r rest i

/-- The method `generateStars` from `src/lib/meteor-animation.ts`: 450–550 base stars
followed by the Milky-Way duplicates. -/
def generateStars (r : ℕ → ℚ) : List Star × ℕ :=
  let count := 450 + (⌊r 0 * 100⌋).toNat
  let (base, i₁) := genStarsAux r count 1
  let (extra, i₂) := milkyWayPass r base i₁
  (base ++ extra, i₂)

/-- The inner star loop of `generateStarClusters`. -/
def clusterStarsAux (r : ℕ → ℚ) (cx cy : ℚ) : ℕ → ℕ → List Star × ℕ
  | 0, i => ([], i)
  | n+1, i =>
    let x := cx + (r i - 0.5) * 0.06
    let y := cy + (r (i+1) - 0.5) * 0.06
    let star0 : Star :=
      { x := max 0 (min 1 x)
        y := max 0 (min 1 y)
        brightness := 0.2 + r (i+2) * 0.4
        radius := 0.3 + r (i+3) * 0.4
        phase := r (i+4) * jsPI * 2
        twinkleSpeed := 0.2 + r (i+5) * 0.4
        hue := 200 + r (i+6) * 20
        saturation := 10 + r (i+7) * 15
        isProminent := false
        depth := r (i+8) * 0.2
        sizeClass := SizeClass.faint
        hueGroup := HueGroup.white }
    let star := { star0 with sizeClass := getSizeClass star0, hueGroup := getHueGroup star0 }
    let (rest, i₁) := clusterStarsAux r cx cy n (i+9)
    (star :: rest, i₁)

/-- The outer cluster loop of `generateStarClusters`. -/
def genClustersAux (r : ℕ → ℚ) : ℕ → ℕ → List Star × ℕ
  | 0, i => ([], i)
  | c+1, i =>
    let cx := 0.15 + r i * 0.7
    let cy := 0.15 + r (i+1) * 0.7
    let starCount := 8 + (⌊r (i+2) * 8⌋).toNat
    let (cluster, i₁) := clusterStarsAux r cx cy starCount (i+3)
    let (rest, i₂) := genClustersAux r c i₁
    (cluster ++ rest, i₂)

/-- The method `generateStarClusters` from `src/lib/meteor-animation.ts`:
2–3 tight clusters of 8–15 blue-white stars. -/
def generateStarClusters (r : ℕ → ℚ) (i : ℕ) : List Star × ℕ :=
  let clusterCount := 2 + (⌊r i * 2⌋).toNat
  genClustersAux r clusterCount (i+1)

/-- The per-nebula loop of `generateNebulae` (season fixed before the loop,
summer consumes an extra draw for its 60/40 amber/purple split). -/
def genNebulaeAux (season : Season) (r : ℕ → ℚ) : ℕ → ℕ → List NebulaGlow
  | 0, _ => []
  | c+1, i =>
    let hueNext : ℚ × ℕ :=
      match season with
      | Season.winter => (220 + r i * 40, i+1)
      | Season.summer =>
        if r i < 0.6 then (30 + r (i+1) * 20, i+2) else (280 + r (i+1) * 30, i+2)
      | Season.spring => (160 + r i * 40, i+1)
      | Season.fall => (280 + r i * 40, i+1)
    let hue := hueNext.1
    let i₁ := hueNext.2
    { x := 0.15 + r i₁ * 0.7
      y := 0.15 + r (i₁+1) * 0.7
      radiusX := 80 + r (i₁+2) * 120
      radiusY := 60 + r (i₁+3) * 100
      hue := hue
      opacity := 0.03 + r (i₁+4) * 0.03 } :: genNebulaeAux season r c (i₁+5)

/-- The method `generateNebulae` from `src/lib/meteor-animation.ts`: 2–3 glow patches
with a season-specific palette derived from `peakMonth`. -/
def genNebulae (month : ℚ) (r : ℕ → ℚ) (i : ℕ) : List NebulaGlow :=
  let count := 2 + (⌊r i * 2⌋).toNat
  genNebulaeAux (getSeason month) r count (i+1)

/-- The cache keys written by `generateStarTextures` (the pixel content of
each texture is pure drawing and carries no engine state). -/
def textureKeys : List String :=
  ["bright_white", "bright_warm", "bright_cool", "bright_yellow",
   "prominent_white", "prominent_warm", "prominent_cool", "prominent_yellow",
   "bloom_white", "bloom_warm", "bloom_cool", "bloom_yellow"]

/-! ### The engine state machine -/

/-- The private fields of the `MeteorAnimation` class. -/
structure EngineState where
  config : MeteorConfig
  width : ℚ
  height : ℚ
  lastTime : ℚ
  mouseTargetX : ℚ
  mouseTargetY : ℚ
  mouseX : ℚ
  mouseY : ℚ
  stars : List Star
  nebulae : List NebulaGlow
  meteors : List Meteor
  starTextures : List String
  spawnAccumulator : ℚ
deriving DecidableEq, Repr

/-- The `MeteorAnimation` constructor. -/
def mkEngine (config : MeteorConfig) : EngineState :=
  { config := config
    width := 0
    height := 0
    lastTime := 0
    mouseTargetX := 0.5
    mouseTargetY := 0.5
    mouseX := 0.5
    mouseY := 0.5
    stars := []
    nebulae := []
    meteors := []
    starTextures := []
    spawnAccumulator := 0 }

/-- A `Partial<MeteorConfig>`: each field optionally present.  For the
optional `colorVariance` field the outer `Option` is presence of the key,
the inner one the (possibly `undefined`) value. -/
structure PartialConfig where
  velocityKmPerSec : Option ℚ := none
  zhr : Option ℚ := none
  radiantX : Option ℚ := none
  radiantY : Option ℚ := none
  colorHue : Option ℚ := none
  moonIllumination : Option ℚ := none
  moonPhaseName : Option String := none
  parentObjectType : Option ParentObjectType := none
  velocityCategory : Option VelocityCategory := none
  peakMonth : Option ℚ := none
  colorVariance : Option (Option ℚ) := none

/-- Merge semantics of `Object.assign(this.config, config)`: present fields overwrite. -/
def mergeConfig (c : MeteorConfig) (p : PartialConfig) : MeteorConfig :=
  { velocityKmPerSec := p.velocityKmPerSec.getD c.velocityKmPerSec
    zhr := p.zhr.getD c.zhr
    radiantX := p.radiantX.getD c.radiantX
    radiantY := p.radiantY.getD c.radiantY
    colorHue := p.colorHue.getD c.colorHue
    moonIllumination := p.moonIllumination.getD c.moonIllumination
    moonPhaseName := p.moonPhaseName.getD c.moonPhaseName
    parentObjectType := p.parentObjectType.getD c.parentObjectType
    velocityCategory := p.velocityCategory.getD c.velocityCategory
    peakMonth := p.peakMonth.getD c.peakMonth
    colorVariance := p.colorVariance.getD c.colorVariance }

/-- The method `updateConfig` from `src/lib/meteor-animation.ts`: merge the partial,
and regenerate nebulae when the partial carries a `peakMonth` different
from the previous one. -/
def updateConfigStep (s : EngineState) (p : PartialConfig) (r : ℕ → ℚ) :
    EngineState :=
  let prevMonth := s.config.peakMonth
  let cfg := mergeConfig s.config p
  match p.peakMonth with
  | some v =>
    if v ≠ prevMonth then
      { s with config := cfg, nebulae := genNebulae cfg.peakMonth r 0 }
    else { s with config := cfg }
  | none => { s with config := cfg }

/-- The method `setMouse` from `src/lib/meteor-animation.ts`. -/
def setMouseStep (s : EngineState) (x y : ℚ) : EngineState :=
  { s with mouseTargetX := x, mouseTargetY := y }

/-- The method `setSize` from `src/lib/meteor-animation.ts`: stars, clusters and
nebulae are generated only on the first transition away from zero size;
the texture cache is rebuilt on every call. -/
def setSizeStep (s : EngineState) (w h : ℚ) (r : ℕ → ℚ) : EngineState :=
  let needStars := s.width = 0 ∧ s.height = 0
  let s₁ := { s with width := w, height := h }
  let s₂ :=
    if needStars then
      let starsNext := generateStars r
      let clustersNext := generateStarClusters r starsNext.2
      { s₁ with
        stars := starsNext.1 ++ clustersNext.1
        nebulae := genNebulae s.config.peakMonth r clustersNext.2 }
    else s₁
  { s₂ with starTextures := textureKeys }

/-- The frame delta of `render`: 16 ms before a time baseline exists,
otherwise the elapsed time capped at 50 ms. -/
def renderDt (s : EngineState) (timestamp : ℚ) : ℚ :=
  if s.lastTime = 0 then 16 else min (timestamp - s.lastTime) 50

/-- The zhr-derived visual spawn rate of `src/lib/meteor-animation.ts`:
`zhr <= 0 ? 0 : 0.3 + 4.0 * Math.pow(zhr / 150, 0.6)`. -/
def spawnVisualRate (jm : JsMath) (zhr : ℚ) : ℚ :=
  if zhr ≤ 0 then 0 else 0.3 + 4.0 * jm.powf (zhr / 150) 0.6

/-- The visual spawn rate of `reference/meteor-animation.ts`:
`zhr <= 0 ? 0 : 0.15 + 2.5 * Math.pow(zhr / 150, 0.75)`. -/
def refVisualRate (jm : JsMath) (zhr : ℚ) : ℚ :=
  if zhr ≤ 0 then 0 else 0.15 + 2.5 * jm.powf (zhr / 150) 0.75

/-- The per-frame expected spawn count of `reference/meteor-animation.ts`,
lines 547–550: the visual rate, dimmed by moonlight
(`1 - moon/100 * 0.25`), times elapsed seconds. -/
def refSpawnRate (jm : JsMath) (zhr moon dt : ℚ) : ℚ :=
  refVisualRate jm zhr * (1 - moon / 100 * 0.25) * (dt / 1000)

/-- The spawn-position retry loop of `spawnMeteor`: a do/while that
resamples while the point is within `minDist` of the radiant, for at most
10 attempts (`fuel` is the number of further attempts allowed). -/
def samplePos (jm : JsMath) (w h rx ry minDist : ℚ) (r : ℕ → ℚ) :
    ℕ → ℕ → ℚ × ℚ × ℕ
  | 0, i => (r i * w, r (i+1) * h, i+2)
  | fuel+1, i =>
    let x := r i * w
    let y := r (i+1) * h
    if jm.sqrtf ((x - rx)^2 + (y - ry)^2) < minDist
    then samplePos jm w h rx ry minDist r fuel (i+2)
    else (x, y, i+2)

/-- The method `spawnMeteor` from `src/lib/meteor-animation.ts`.  The direction is
`(cos θ, sin θ)` for `θ = atan2(y - ry, x - rx)`, i.e. the radiant-to-point
vector divided by its hypotenuse (degenerate at the radiant itself, which
the retry loop avoids except when its 10 attempts are exhausted). -/
def spawnMeteor (jm : JsMath) (cfg : MeteorConfig) (w h : ℚ) (r : ℕ → ℚ)
    (i : ℕ) : Meteor × ℕ :=
  let rx := cfg.radiantX * w
  let ry := cfg.radiantY * h
  let minDist := min w h * 0.15
  let pos := samplePos jm w h rx ry minDist r 9 i
  let x := pos.1
  let y := pos.2.1
  let i₂ := pos.2.2
  let hyp := jm.sqrtf ((x - rx)^2 + (y - ry)^2)
  let dx := (x - rx) / hyp
  let dy := (y - ry) / hyp
  let normalizedV := (cfg.velocityKmPerSec - 20) / 55
  let baseSpeed := 2 + jm.powf (max 0 normalizedV) 1.4 * 12
  let speed := baseSpeed * (0.85 + r i₂ * 0.3)
  let velocityFactor := 0.6 + normalizedV * 0.8
  let isFireball :=
    r (i₂+1) < (if cfg.parentObjectType = ParentObjectType.asteroid then 0.12 else 0.05)
  let sizeRoll := r (i₂+2)
  let length : ℚ :=
    if isFireball then (90 + r (i₂+3) * 70) * velocityFactor
    else if sizeRoll < 0.4 then (12 + r (i₂+3) * 20) * velocityFactor
    else if sizeRoll < 0.85 then (30 + r (i₂+3) * 35) * velocityFactor
    else (60 + r (i₂+3) * 40) * velocityFactor
  let thickness : ℚ :=
    if isFireball then 3.0 + r (i₂+4) * 2.5
    else if sizeRoll < 0.4 then 0.4 + r (i₂+4) * 0.4
    else if sizeRoll < 0.85 then 0.8 + r (i₂+4) * 0.8
    else 1.6 + r (i₂+4) * 1.2
  -- the conditional draws below are consumed lazily, as `?:` does
  let opacityNext : ℚ × ℕ :=
    if isFireball then (1, i₂+5) else (0.3 + r (i₂+5) * 0.7, i₂+6)
  let i₃ := opacityNext.2
  let hue := cfg.colorHue + (r i₃ - 0.5) * 40
  let maxLife := 90 + r (i₃+1) * 30
  let satNext : ℚ × ℕ :=
    if isFireball then (65, i₃+2) else (40 + r (i₃+2) * 30, i₃+3)
  ({ x := x
     y := y
     dx := dx
     dy := dy
     speed := speed
     length := length
     opacity := opacityNext.1
     thickness := thickness
     hue := hue
     isFireball := isFireball
     life := 0
     maxLife := maxLife
     saturation := satNext.1 }, satNext.2)

/-- Runs `n` successive `spawnMeteor` calls (the body of the accumulator loop). -/
def spawnN (jm : JsMath) (cfg : MeteorConfig) (w h : ℚ) (r : ℕ → ℚ) :
    ℕ → ℕ → List Meteor × ℕ
  | 0, i => ([], i)
  | n+1, i =>
    let (m, i₁) := spawnMeteor jm cfg w h r i
    let (rest, i₂) := spawnN jm cfg w h r n i₁
    (m :: rest, i₂)

/-- One step of the per-meteor integration in `render`: advance the
position along the direction vector and increment life, both scaled by
`frameScale = dt / 16`. -/
def stepMeteor (frameScale : ℚ) (m : Meteor) : Meteor :=
  { m with
    x := m.x + m.dx * m.speed * frameScale
    y := m.y + m.dy * m.speed * frameScale
    life := m.life + frameScale }

/-- The removal predicate of the `render` filter: off the surface by more
than 100 units on any side, or life beyond `maxLife`. -/
def meteorExpired (w h : ℚ) (m : Meteor) : Bool :=
  decide (m.x < -100) || decide (m.x > w + 100) ||
  decide (m.y < -100) || decide (m.y > h + 100) ||
  decide (m.life > m.maxLife)

/-- The meteor phase of `render`: every live meteor is moved and aged,
expired ones are dropped, and exactly the surviving list is drawn. -/
def updateMeteors (w h frameScale : ℚ) (ms : List Meteor) : List Meteor :=
  (ms.map (stepMeteor frameScale)).filter (fun m => ! meteorExpired w h m)

/-- The method `render` from `src/lib/meteor-animation.ts`, restricted to its effect
on engine state (all canvas work is pure output).  The `while` spawn loop
runs `⌊acc⌋` times, subtracting 1 each time, which is folded here into a
single `spawnN` call and subtraction. -/
def renderStep (jm : JsMath) (s : EngineState) (timestamp : ℚ) (r : ℕ → ℚ) :
    EngineState :=
  if s.width = 0 ∨ s.height = 0 then s
  else
    let dt := renderDt s timestamp
    let lerpSpeed := 1 - jm.powf 0.92 (dt / 16)
    let mouseX := s.mouseX + (s.mouseTargetX - s.mouseX) * lerpSpeed
    let mouseY := s.mouseY + (s.mouseTargetY - s.mouseY) * lerpSpeed
    let spawnRate := spawnVisualRate jm s.config.zhr * (dt / 1000)
    let acc := s.spawnAccumulator + spawnRate
    let spawnCount := (⌊acc⌋).toNat
    let spawned := (spawnN jm s.config s.width s.height r 0 spawnCount).1
    let frameScale := dt / 16
    { s with
      lastTime := timestamp
      mouseX := mouseX
      mouseY := mouseY
      spawnAccumulator := acc - spawnCount
      meteors := updateMeteors s.width s.height frameScale (s.meteors ++ spawned) }

/-- The `moonFraction` getter of `src/lib/meteor-animation.ts`:
`this.config.moonIllumination / 100`, with no clamping. -/
def moonFraction (s : EngineState) : ℚ := s.config.moonIllumination / 100

/-- A call to one of the engine's public mutating methods, with the random
draws it may consume. -/
inductive EngineOp where
  | updateConfig (p : PartialConfig) (r : ℕ → ℚ)
  | setMouse (x y : ℚ)
  | setSize (w h : ℚ) (r : ℕ → ℚ)
  | render (timestamp : ℚ) (r : ℕ → ℚ)

/-- Apply one public method call to the engine state. -/
def engineApply (jm : JsMath) (s : EngineState) : EngineOp → EngineState
  | EngineOp.updateConfig p r => updateConfigStep s p r
  | EngineOp.setMouse x y => setMouseStep s x y
  | EngineOp.setSize w h r => setSizeStep s w h r
  | EngineOp.render timestamp r => renderStep jm s timestamp r

/-- Run a sequence of public method calls. -/
def runOps (jm : JsMath) (s : EngineState) (ops : List EngineOp) : EngineState :=
  ops.foldl (engineApply jm) s

/-! ### Concrete instances used by witnesses and counterexamples -/

/-- A concrete `JsMath` instance (any instance works for the properties
below; witnesses use this one so that terms evaluate). -/
def jmOne : JsMath := { powf := fun _ _ => 1, sqrtf := fun _ => 1 }

/-- The constant-zero random stream. -/
def r0 : ℕ → ℚ := fun _ => 0

/-- A valid sample configuration (March, quiet sky). -/
def cfgMarch : MeteorConfig :=
  { velocityKmPerSec := 40
    zhr := 0
    radiantX := 0.5
    radiantY := 0.3
    colorHue := 180
    moonIllumination := 0
    moonPhaseName := "new moon"
    parentObjectType := ParentObjectType.comet
    velocityCategory := VelocityCategory.medium
    peakMonth := 3
    colorVariance := none }

/-- A second valid sample configuration (August, active shower). -/
def cfgAugust : MeteorConfig :=
  { velocityKmPerSec := 59
    zhr := 100
    radiantX := 0.25
    radiantY := 0.15
    colorHue := 55
    moonIllumination := 80
    moonPhaseName := "waxing gibbous"
    parentObjectType := ParentObjectType.comet
    velocityCategory := VelocityCategory.swift
    peakMonth := 8
    colorVariance := some 90 }

/-- A partial update that only moves `peakMonth` to April. -/
def pApril : PartialConfig := { peakMonth := some 4 }

/-- An engine state sitting in March with an empty nebula list. -/
def sMarch : EngineState := mkEngine cfgMarch

/-- A sized engine state carrying two meteors: one freshly alive, one
whose life is already past its `maxLife`. -/
def sSized : EngineState :=
  { mkEngine cfgMarch with
    width := 200
    height := 100
    lastTime := 4
    meteors :=
      [{ x := 50, y := 40, dx := 1, dy := 0, speed := 2, length := 30
         opacity := 0.5, thickness := 1, hue := 180, isFireball := false
         life := 10, maxLife := 100, saturation := 40 },
       { x := 50, y := 40, dx := 1, dy := 0, speed := 2, length := 30
         opacity := 0.5, thickness := 1, hue := 180, isFireball := false
         life := 150, maxLife := 100, saturation := 40 }] }

/-- State `sSized` with full moonlight, all else equal. -/
def sSizedFullMoon : EngineState :=
  { sSized with config := { sSized.config with moonIllumination := 100 } }

/-- An engine state whose config carries an out-of-range moon illumination. -/
def sOverMoon : EngineState := mkEngine { cfgMarch with moonIllumination := 200 }

/-- A sized, meteor-free state with an active shower and a new moon. -/
def sSpawn : EngineState :=
  { mkEngine { cfgMarch with zhr := 150 } with
    width := 200
    height := 100
    lastTime := 4 }

/-- State `sSpawn` with full moonlight, all else equal. -/
def sSpawnFullMoon : EngineState :=
  { sSpawn with config := { sSpawn.config with moonIllumination := 100 } }

/-! ### Modulus lemmas -/

theorem fmod_eq_fract {n : ℚ} (hn : n ≠ 0) (x : ℚ) :
    fmod x n = n * Int.fract (x / n) := by
  unfold fmod Int.fract
  rw [mul_sub, mul_div_cancel₀ _ hn]

theorem fmod_nonneg {n : ℚ} (hn : 0 < n) (x : ℚ) : 0 ≤ fmod x n := by
  rw [fmod_eq_fract hn.ne']
  exact mul_nonneg hn.le (Int.fract_nonneg _)

theorem fmod_lt {n : ℚ} (hn : 0 < n) (x : ℚ) : fmod x n < n := by
  rw [fmod_eq_fract hn.ne']
  calc n * Int.fract (x / n) < n * 1 :=
        mul_lt_mul_of_pos_left (Int.fract_lt_one _) hn
    _ = n := mul_one n

theorem fmod_add_int_mul {n : ℚ} (hn : n ≠ 0) (x : ℚ) (k : ℤ) :
    fmod (x + n * k) n = fmod x n := by
  rw [fmod_eq_fract hn, fmod_eq_fract hn]
  have : (x + n * k) / n = x / n + k := by
    rw [add_div, mul_div_cancel_left₀ _ hn]
  rw [this, Int.fract_add_int]

theorem fmod_eq_self {n x : ℚ} (h0 : 0 ≤ x) (h1 : x < n) : fmod x n = x := by
  have hn : 0 < n := lt_of_le_of_lt h0 h1
  rw [fmod_eq_fract hn.ne', Int.fract_eq_self.mpr
    ⟨div_nonneg h0 hn.le, (div_lt_one hn).mpr h1⟩]
  field_simp

theorem jsMod_of_nonneg {n x : ℚ} (hx : 0 ≤ x) (hn : 0 < n) :
    jsMod x n = fmod x n := by
  unfold jsMod jtrunc fmod
  rw [if_pos (div_nonneg hx hn.le)]

/-- The normalisation idiom `((x % n) + n) % n` from the source computes the
floor-based modulus, for every sign of `x`. -/
theorem jsMod_wrap {n : ℚ} (hn : 0 < n) (x : ℚ) :
    jsMod (jsMod x n + n) n = fmod x n := by
  rcases le_or_lt 0 x with hx | hx
  · rw [jsMod_of_nonneg hx hn]
    have h0 : 0 ≤ fmod x n := fmod_nonneg hn x
    have h1 : fmod x n < n := fmod_lt hn x
    rw [jsMod_of_nonneg (by linarith) hn]
    have h2 := fmod_add_int_mul hn.ne' (fmod x n) 1
    rw [Int.cast_one, mul_one] at h2
    rw [h2, fmod_eq_self h0 h1]
  · have hq : x / n < 0 := div_neg_of_neg_of_pos hx hn
    have htr : jtrunc (x / n) = ⌈x / n⌉ := by
      unfold jtrunc; rw [if_neg (not_le.mpr hq)]
    have hfract : Int.fract (x / n) = x / n - ⌊x / n⌋ := rfl
    by_cases hint : Int.fract (x / n) = 0
    · -- x is an exact multiple of n
      have hrfl : x / n = (⌊x / n⌋ : ℚ) := by rw [hfract] at hint; linarith
      have hceil : ⌈x / n⌉ = ⌊x / n⌋ := by
        rw [hrfl, Int.ceil_intCast, Int.floor_intCast]
      have hx_eq : x = n * (⌊x / n⌋ : ℚ) := by
        have := hrfl
        field_simp at this
        linarith
      have hjs0 : jsMod x n = 0 := by
        unfold jsMod; rw [htr, hceil]; linarith
      have hfm0 : fmod x n = 0 := by unfold fmod; linarith
      rw [hjs0, hfm0, zero_add]
      unfold jsMod jtrunc
      rw [div_self hn.ne', if_pos (by norm_num : (0:ℚ) ≤ 1), Int.floor_one]
      simp
    · -- x is strictly between two multiples of n
      have hceil : ⌈x / n⌉ = ⌊x / n⌋ + 1 := by
        rcases lt_or_le ⌊x / n⌋ ⌈x / n⌉ with h | h
        · exact le_antisymm (Int.ceil_le_floor_add_one (x / n))
            (Int.lt_iff_add_one_le.mp h)
        · exfalso
          have h1 : x / n ≤ (⌈x / n⌉ : ℚ) := Int.le_ceil (x / n)
          have h2 : (⌈x / n⌉ : ℚ) ≤ (⌊x / n⌋ : ℚ) := by exact_mod_cast h
          have h3 : (⌊x / n⌋ : ℚ) ≤ x / n := Int.floor_le (x / n)
          apply hint
          rw [hfract]
          linarith
      have hfr0 : 0 < Int.fract (x / n) :=
        lt_of_le_of_ne (Int.fract_nonneg _) (Ne.symm hint)
      have hfmod_pos : 0 < fmod x n := by
        rw [fmod_eq_fract hn.ne']
        positivity
      have hfmod_lt : fmod x n < n := fmod_lt hn x
      have hjs : jsMod x n = fmod x n - n := by
        unfold jsMod fmod
        rw [htr, hceil]
        push_cast
        ring
      rw [hjs]
      rw [show fmod x n - n + n = fmod x n by ring]
      rw [jsMod_of_nonneg hfmod_pos.le hn, fmod_eq_self hfmod_pos.le hfmod_lt]

/-! ### Circular-distance lemmas -/

theorem circDist_comm (u v : ℚ) : circDist u v = circDist v u := by
  unfold circDist; exact min_comm _ _

theorem circDist_add_int_right (u v : ℚ) (k : ℤ) :
    circDist u (v + 360 * k) = circDist u v := by
  unfold circDist
  have h1 : u - (v + 360 * k) = (u - v) + 360 * (-k : ℤ) := by push_cast; ring
  have h2 : (v + 360 * k) - u = (v - u) + 360 * (k : ℤ) := by ring
  rw [h1, h2, fmod_add_int_mul (by norm_num) (u - v) (-k),
    fmod_add_int_mul (by norm_num) (v - u) k]

theorem circDist_add_int_left (u v : ℚ) (k : ℤ) :
    circDist (u + 360 * k) v = circDist u v := by
  rw [circDist_comm, circDist_add_int_right, circDist_comm]

/-- On a short arc (length at most half the circle) the circular distance
is the plain distance. -/
theorem circDist_self_add {d : ℚ} (h : |d| ≤ 180) (u : ℚ) :
    circDist u (u + d) = |d| := by
  have habs := abs_le.mp h
  unfold circDist
  rw [show u - (u + d) = -d by ring, show (u + d) - u = d by ring]
  rcases lt_trichotomy d 0 with hd | hd | hd
  · -- d < 0 : fmod (-d) = -d ∈ (0,180], fmod d = d + 360 ∈ [180,360)
    have h1 : fmod (-d) 360 = -d := fmod_eq_self (by linarith) (by linarith)
    have h2 : fmod d 360 = d + 360 := by
      have := fmod_add_int_mul (n := 360) (by norm_num) d 1
      rw [Int.cast_one, mul_one] at this
      rw [← this, fmod_eq_self (by linarith) (by linarith)]
    rw [h1, h2, abs_of_neg hd]
    exact min_eq_left (by linarith)
  · subst hd; norm_num [fmod, abs_of_nonneg]
  · -- 0 < d : fmod d = d, fmod (-d) = 360 - d
    have h1 : fmod d 360 = d := fmod_eq_self (by linarith) (by linarith)
    have h2 : fmod (-d) 360 = -d + 360 := by
      have := fmod_add_int_mul (n := 360) (by norm_num) (-d) 1
      rw [Int.cast_one, mul_one] at this
      rw [← this, fmod_eq_self (by linarith) (by linarith)]
    rw [h1, h2, abs_of_pos hd]
    exact min_eq_right (by linarith)

/-! ### Hue-interpolation lemmas -/

theorem lerpHue_eq_fmod (a b t : ℚ) :
    lerpHue a b t = fmod (a + hueDiff a b * t) 360 :=
  jsMod_wrap (by norm_num) _

theorem lerpHue_mem (a b t : ℚ) :
    0 ≤ lerpHue a b t ∧ lerpHue a b t < 360 := by
  rw [lerpHue_eq_fmod]
  exact ⟨fmod_nonneg (by norm_num) _, fmod_lt (by norm_num) _⟩

theorem hueDiff_bounds {a b : ℚ} (ha0 : 0 ≤ a) (ha1 : a < 360)
    (hb0 : 0 ≤ b) (hb1 : b < 360) :
    -180 ≤ hueDiff a b ∧ hueDiff a b < 180 := by
  unfold hueDiff
  rw [jsMod_of_nonneg (by linarith) (by norm_num)]
  have h0 := fmod_nonneg (n := 360) (by norm_num) (b - a + 540)
  have h1 := fmod_lt (n := 360) (by norm_num) (b - a + 540)
  constructor <;> linarith

theorem hueDiff_congr {a b : ℚ} (ha1 : a < 360) (hb0 : 0 ≤ b) :
    ∃ k : ℤ, hueDiff a b = b - a + 360 * (k : ℚ) := by
  unfold hueDiff
  rw [jsMod_of_nonneg (by linarith) (by norm_num)]
  refine ⟨1 - ⌊(b - a + 540) / 360⌋, ?_⟩
  unfold fmod
  push_cast
  ring

theorem lerpHue_self {h : ℚ} (h0 : 0 ≤ h) (h1 : h < 360) (t : ℚ) :
    lerpHue h h t = h := by
  rw [lerpHue_eq_fmod]
  have hd : hueDiff h h = 0 := by
    unfold hueDiff
    rw [jsMod_of_nonneg (by linarith) (by norm_num)]
    rw [show h - h + 540 = 180 + 360 * ((1 : ℤ) : ℚ) by push_cast; ring]
    rw [fmod_add_int_mul (by norm_num) 180 1,
      fmod_eq_self (by norm_num) (by norm_num)]
    norm_num
  rw [hd, zero_mul, add_zero, fmod_eq_self h0 h1]

theorem lerpHue_zero {a b : ℚ} (ha0 : 0 ≤ a) (ha1 : a < 360) :
    lerpHue a b 0 = a := by
  rw [lerpHue_eq_fmod, mul_zero, add_zero, fmod_eq_self ha0 ha1]

theorem lerpHue_one {a b : ℚ} (ha1 : a < 360) (hb0 : 0 ≤ b) (hb1 : b < 360) :
    lerpHue a b 1 = b := by
  rw [lerpHue_eq_fmod, mul_one]
  obtain ⟨k, hk⟩ := hueDiff_congr ha1 hb0
  rw [hk, show a + (b - a + 360 * (k : ℚ)) = b + 360 * (k : ℚ) by ring]
  rw [fmod_add_int_mul (by norm_num) b k, fmod_eq_self hb0 hb1]

/-! ### Linear-interpolation lemmas -/

theorem lerp_self (a t : ℚ) : lerp a a t = a := by unfold lerp; ring

theorem lerp_zero (a b : ℚ) : lerp a b 0 = a := by unfold lerp; ring

theorem lerp_one (a b : ℚ) : lerp a b 1 = b := by unfold lerp; ring

theorem lerp_between {a b t : ℚ} (h0 : 0 ≤ t) (h1 : t ≤ 1) :
    min a b ≤ lerp a b t ∧ lerp a b t ≤ max a b := by
  rcases le_total a b with h | h
  · rw [min_eq_left h, max_eq_right h]
    unfold lerp
    constructor <;> nlinarith
  · rw [min_eq_right h, max_eq_left h]
    unfold lerp
    constructor <;> nlinarith

theorem jround_intCast (m : ℤ) : jround ((m : ℚ)) = m := by
  unfold jround
  rw [Int.floor_int_add]
  norm_num

theorem jround_bounds {x : ℚ} (h1 : 1 ≤ x) (h2 : x ≤ 12) :
    (1 : ℚ) ≤ (jround x : ℚ) ∧ (jround x : ℚ) ≤ 12 := by
  unfold jround
  constructor
  · have h : (1 : ℤ) ≤ ⌊x + 1/2⌋ := Int.le_floor.mpr (by push_cast; linarith)
    exact_mod_cast h
  · have h : ⌊x + 1/2⌋ < 13 := Int.floor_lt.mpr (by push_cast; linarith)
    have h13 : ⌊x + 1/2⌋ ≤ 12 := by omega
    exact_mod_cast h13

/-! ### Claim C2 -/

/-- C2 counterexample: the claim states the signed difference is wrapped
into (−180, 180], but at `a = 0`, `b = 180` the code wraps it to `−180`,
which is outside that interval; the interpolation then follows the arc of
decreasing hue (result 270 at `t = 1/2`), not the one through 90 that the
claimed (−180, 180] wrap would give. -/
theorem hueDiff_tie_goes_negative :
    hueDiff 0 180 = -180 ∧ ¬ (-180 < hueDiff 0 180) ∧
    lerpHue 0 180 (1/2) = 270 := by
  have hd : hueDiff 0 180 = -180 := by
    norm_num [hueDiff, jsMod, jtrunc]
  refine ⟨hd, by rw [hd]; norm_num, ?_⟩
  unfold lerpHue
  rw [hd]
  have h1 : (0 : ℚ) + -180 * (1/2) = -90 := by norm_num
  rw [h1]
  have h2 : jsMod (-90) 360 = -90 := by
    unfold jsMod jtrunc
    rw [if_neg (by norm_num)]
    norm_num
  rw [h2]
  have h3 : (-90 : ℚ) + 360 = 270 := by norm_num
  rw [h3]
  unfold jsMod jtrunc
  rw [if_pos (by norm_num)]
  norm_num

/-- C2 (amended): for hues `a, b ∈ [0, 360)` and `t ∈ [0, 1]`, the signed
difference computed by `lerpHue` lies in [−180, 180) (a 180° tie resolves
to −180), the result is wrapped into [0, 360), and it lies on a shortest
arc between `a` and `b`: the circular distances from `a` to the result and
from the result to `b` add up to the circular distance from `a` to `b`. -/
theorem lerpHue_shortest_arc (a b t : ℚ) (ha0 : 0 ≤ a) (ha1 : a < 360)
    (hb0 : 0 ≤ b) (hb1 : b < 360) (ht0 : 0 ≤ t) (ht1 : t ≤ 1) :
    (-180 ≤ hueDiff a b ∧ hueDiff a b < 180) ∧
    (0 ≤ lerpHue a b t ∧ lerpHue a b t < 360) ∧
    circDist a (lerpHue a b t) + circDist (lerpHue a b t) b = circDist a b := by
  obtain ⟨hd0, hd1⟩ := hueDiff_bounds ha0 ha1 hb0 hb1
  refine ⟨⟨hd0, hd1⟩, lerpHue_mem a b t, ?_⟩
  obtain ⟨k, hk⟩ := hueDiff_congr ha1 hb0
  have heq := lerpHue_eq_fmod a b t
  set d := hueDiff a b with hddef
  set L := lerpHue a b t with hLdef
  have habs : |d| ≤ 180 := abs_le.mpr ⟨by linarith, by linarith⟩
  have habs_dt : |d * t| ≤ 180 := by
    rw [abs_mul, abs_of_nonneg ht0]
    nlinarith [abs_nonneg d]
  have habs_d1t : |d * (1 - t)| ≤ 180 := by
    rw [abs_mul, abs_of_nonneg (by linarith : (0:ℚ) ≤ 1 - t)]
    nlinarith [abs_nonneg d]
  have hk1 : L = (a + d * t) + 360 * ((-⌊(a + d * t) / 360⌋ : ℤ) : ℚ) := by
    rw [heq]
    unfold fmod
    push_cast
    ring
  have h₁ : circDist a L = |d| * t := by
    rw [hk1, circDist_add_int_right a (a + d * t) _,
      circDist_self_add habs_dt a, abs_mul, abs_of_nonneg ht0]
  have hb_eq : b = ((a + d * t) + d * (1 - t)) + 360 * ((-k : ℤ) : ℚ) := by
    rw [hk]
    push_cast
    ring
  have hb_eq2 : b = (a + d) + 360 * ((-k : ℤ) : ℚ) := by
    rw [hk]
    push_cast
    ring
  have h₂ : circDist L b = |d| * (1 - t) := by
    rw [hk1, circDist_add_int_left, hb_eq]
    rw [circDist_add_int_right, circDist_self_add habs_d1t,
      abs_mul, abs_of_nonneg (by linarith : (0:ℚ) ≤ 1 - t)]
  have h₃ : circDist a b = |d| := by
    rw [hb_eq2]
    rw [circDist_add_int_right, circDist_self_add habs a]
  rw [h₁, h₂, h₃]
  ring

/-- Witness for C2 at `a = 350`, `b = 30`, `t = 1/2`: the result is 10 (the
short way through 0°, not 190 through 180°). -/
theorem lerpHue_shortest_arc_witness :
    lerpHue 350 30 (1/2) = 10 ∧
    ((-180 ≤ hueDiff 350 30 ∧ hueDiff 350 30 < 180) ∧
     (0 ≤ lerpHue 350 30 (1/2) ∧ lerpHue 350 30 (1/2) < 360) ∧
     circDist 350 (lerpHue 350 30 (1/2)) + circDist (lerpHue 350 30 (1/2)) 30 =
       circDist 350 30) :=
  ⟨by norm_num [lerpHue, hueDiff, jsMod, jtrunc],
   lerpHue_shortest_arc 350 30 (1/2) (by norm_num) (by norm_num) (by norm_num)
     (by norm_num) (by norm_num) (by norm_num)⟩

/-! ### Claim C3 -/

/-- C3: blending a valid config with itself is the identity for every
`t ∈ [0, 1]`, and blending two valid configs is exact at the boundaries:
`t = 0` returns the first config, `t = 1` the second (the `t < 0.5` snap
rule and the absent-`colorVariance` snap included). -/
theorem lerpConfig_identity_boundaries (a b : MeteorConfig) (t : ℚ)
    (ha : a.Valid) (hb : b.Valid) (ht0 : 0 ≤ t) (ht1 : t ≤ 1) :
    lerpConfig a a t = a ∧ lerpConfig a b 0 = a ∧ lerpConfig a b 1 = b := by
  obtain ⟨-, -, -, -, -, -, hahue0, hahue1, -, -, -, -, haint⟩ := ha
  obtain ⟨-, -, -, -, -, -, hbhue0, hbhue1, -, -, -, -, hbint⟩ := hb
  obtain ⟨av, az, ax, ay, ah, am, amn, apo, avc, apm, acv⟩ := a
  obtain ⟨bv, bz, bx, by', bh, bm, bmn, bpo, bvc, bpm, bcv⟩ := b
  simp only at hahue0 hahue1 haint hbhue0 hbhue1 hbint
  refine ⟨?_, ?_, ?_⟩
  · -- lerpConfig with itself is the identity
    simp only [lerpConfig, MeteorConfig.mk.injEq]
    refine ⟨lerp_self _ t, lerp_self _ t, lerp_self _ t, lerp_self _ t,
      lerpHue_self hahue0 hahue1 t, lerp_self _ t, ite_self _, ite_self _,
      ite_self _, ?_, ?_⟩
    · rw [lerp_self, ← haint, jround_intCast]
    · cases acv with
      | none => simp
      | some v => simp [lerp_self]
  · -- exact at t = 0
    have hsnap : (0 : ℚ) < 1/2 := by norm_num
    simp only [lerpConfig, MeteorConfig.mk.injEq]
    refine ⟨lerp_zero _ _, lerp_zero _ _, lerp_zero _ _, lerp_zero _ _,
      lerpHue_zero hahue0 hahue1, lerp_zero _ _, if_pos hsnap, if_pos hsnap,
      if_pos hsnap, ?_, ?_⟩
    · rw [lerp_zero, ← haint, jround_intCast]
    · cases acv with
      | none => cases bcv <;> simp [hsnap]
      | some v => cases bcv <;> simp [hsnap, lerp_zero]
  · -- exact at t = 1
    have hsnap : ¬ ((1 : ℚ) < 1/2) := by norm_num
    simp only [lerpConfig, MeteorConfig.mk.injEq]
    refine ⟨lerp_one _ _, lerp_one _ _, lerp_one _ _, lerp_one _ _,
      lerpHue_one hahue1 hbhue0 hbhue1, lerp_one _ _, if_neg hsnap, if_neg hsnap,
      if_neg hsnap, ?_, ?_⟩
    · rw [lerp_one, ← hbint, jround_intCast]
    · cases acv with
      | none => cases bcv <;> simp [if_neg hsnap] <;> norm_num
      | some v => cases bcv <;> simp [if_neg hsnap, lerp_one] <;> norm_num

/-- Witness for C3 at two concrete valid configs and `t = 1/3`. -/
theorem lerpConfig_identity_boundaries_witness :
    cfgMarch.Valid ∧ cfgAugust.Valid ∧
    (lerpConfig cfgMarch cfgMarch (1/3) = cfgMarch ∧
     lerpConfig cfgMarch cfgAugust 0 = cfgMarch ∧
     lerpConfig cfgMarch cfgAugust 1 = cfgAugust) :=
  ⟨by norm_num [MeteorConfig.Valid, cfgMarch],
   by norm_num [MeteorConfig.Valid, cfgAugust],
   lerpConfig_identity_boundaries cfgMarch cfgAugust (1/3)
     (by norm_num [MeteorConfig.Valid, cfgMarch])
     (by norm_num [MeteorConfig.Valid, cfgAugust])
     (by norm_num) (by norm_num)⟩

/-! ### Claim C8 -/

/-- C8: for valid configs and `t ∈ [0, 1]`, every float field of the blend
stays in its documented range — the linear fields lie between their two
input values (hence inside the range), the hue wraps into [0, 360), and
the rounded `peakMonth` stays in [1, 12]. -/
theorem lerpConfig_ranges (a b : MeteorConfig) (t : ℚ)
    (ha : a.Valid) (hb : b.Valid) (ht0 : 0 ≤ t) (ht1 : t ≤ 1) :
    (min a.velocityKmPerSec b.velocityKmPerSec ≤ (lerpConfig a b t).velocityKmPerSec ∧
      (lerpConfig a b t).velocityKmPerSec ≤ max a.velocityKmPerSec b.velocityKmPerSec) ∧
    (min a.zhr b.zhr ≤ (lerpConfig a b t).zhr ∧
      (lerpConfig a b t).zhr ≤ max a.zhr b.zhr) ∧
    (min a.radiantX b.radiantX ≤ (lerpConfig a b t).radiantX ∧
      (lerpConfig a b t).radiantX ≤ max a.radiantX b.radiantX) ∧
    (min a.radiantY b.radiantY ≤ (lerpConfig a b t).radiantY ∧
      (lerpConfig a b t).radiantY ≤ max a.radiantY b.radiantY) ∧
    (min a.moonIllumination b.moonIllumination ≤ (lerpConfig a b t).moonIllumination ∧
      (lerpConfig a b t).moonIllumination ≤ max a.moonIllumination b.moonIllumination) ∧
    (0 ≤ (lerpConfig a b t).velocityKmPerSec) ∧
    (0 ≤ (lerpConfig a b t).zhr) ∧
    (0 ≤ (lerpConfig a b t).radiantX ∧ (lerpConfig a b t).radiantX ≤ 1) ∧
    (0 ≤ (lerpConfig a b t).radiantY ∧ (lerpConfig a b t).radiantY ≤ 1) ∧
    (0 ≤ (lerpConfig a b t).colorHue ∧ (lerpConfig a b t).colorHue < 360) ∧
    (0 ≤ (lerpConfig a b t).moonIllumination ∧ (lerpConfig a b t).moonIllumination ≤ 100) ∧
    (1 ≤ (lerpConfig a b t).peakMonth ∧ (lerpConfig a b t).peakMonth ≤ 12) := by
  obtain ⟨hav, haz, hax0, hax1, hay0, hay1, -, -, ham0, ham1, hap1, hap12, -⟩ := ha
  obtain ⟨hbv, hbz, hbx0, hbx1, hby0, hby1, -, -, hbm0, hbm1, hbp1, hbp12, -⟩ := hb
  have hV := lerp_between (a := a.velocityKmPerSec) (b := b.velocityKmPerSec) ht0 ht1
  have hZ := lerp_between (a := a.zhr) (b := b.zhr) ht0 ht1
  have hX := lerp_between (a := a.radiantX) (b := b.radiantX) ht0 ht1
  have hY := lerp_between (a := a.radiantY) (b := b.radiantY) ht0 ht1
  have hM := lerp_between (a := a.moonIllumination) (b := b.moonIllumination) ht0 ht1
  have hP := lerp_between (a := a.peakMonth) (b := b.peakMonth) ht0 ht1
  have hHue := lerpHue_mem a.colorHue b.colorHue t
  have hP1 : 1 ≤ lerp a.peakMonth b.peakMonth t := le_trans (le_min hap1 hbp1) hP.1
  have hP12 : lerp a.peakMonth b.peakMonth t ≤ 12 := le_trans hP.2 (max_le hap12 hbp12)
  have hJ := jround_bounds hP1 hP12
  refine ⟨hV, hZ, hX, hY, hM, ?_, ?_, ⟨?_, ?_⟩, ⟨?_, ?_⟩, hHue, ⟨?_, ?_⟩, hJ⟩
  · exact le_trans (le_min hav hbv) hV.1
  · exact le_trans (le_min haz hbz) hZ.1
  · exact le_trans (le_min hax0 hbx0) hX.1
  · exact le_trans hX.2 (max_le hax1 hbx1)
  · exact le_trans (le_min hay0 hby0) hY.1
  · exact le_trans hY.2 (max_le hay1 hby1)
  · exact le_trans (le_min ham0 hbm0) hM.1
  · exact le_trans hM.2 (max_le ham1 hbm1)

/-- Witness for C8 at two concrete valid configs and `t = 1/4`. -/
theorem lerpConfig_ranges_witness :
    cfgMarch.Valid ∧ cfgAugust.Valid ∧
    (0 ≤ (lerpConfig cfgMarch cfgAugust (1/4)).colorHue ∧
      (lerpConfig cfgMarch cfgAugust (1/4)).colorHue < 360) ∧
    (1 ≤ (lerpConfig cfgMarch cfgAugust (1/4)).peakMonth ∧
      (lerpConfig cfgMarch cfgAugust (1/4)).peakMonth ≤ 12) := by
  have h := lerpConfig_ranges cfgMarch cfgAugust (1/4)
    (by norm_num [MeteorConfig.Valid, cfgMarch])
    (by norm_num [MeteorConfig.Valid, cfgAugust])
    (by norm_num) (by norm_num)
  obtain ⟨-, -, -, -, -, -, -, -, -, hhue, -, hpk⟩ := h
  exact ⟨by norm_num [MeteorConfig.Valid, cfgMarch],
    by norm_num [MeteorConfig.Valid, cfgAugust], hhue, hpk⟩

/-! ### Claim C7 -/

/-- C7 counterexample: the interpolation parameter and the moon
illumination are not clamped before use — `lerpConfig` at `t = 2`
extrapolates past the `t = 1` result instead of matching it, and the
engine's `moonFraction` getter passes an out-of-range illumination of 200
through as 2 rather than behaving as the clamped value 100 (fraction 1). -/
theorem inputs_not_clamped :
    (lerpConfig cfgMarch cfgAugust 2).zhr ≠ (lerpConfig cfgMarch cfgAugust 1).zhr ∧
    moonFraction sOverMoon = 2 := by
  constructor
  · show lerp cfgMarch.zhr cfgAugust.zhr 2 ≠ lerp cfgMarch.zhr cfgAugust.zhr 1
    norm_num [lerp, cfgMarch, cfgAugust]
  · norm_num [moonFraction, sOverMoon, mkEngine, cfgMarch]

/-- C7 (amended): of the three inputs named by the claim only `zhr` is
guarded: the spawn-rate computation treats every nonpositive `zhr` as 0
(so a negative `zhr` behaves exactly as the clamped value 0, silently);
`moonIllumination` and the interpolation `t` are used unclamped. -/
theorem spawnVisualRate_clamped_below (jm : JsMath) (z : ℚ) (hz : z ≤ 0) :
    spawnVisualRate jm z = 0 ∧ spawnVisualRate jm z = spawnVisualRate jm 0 := by
  unfold spawnVisualRate
  rw [if_pos hz, if_pos le_rfl]
  exact ⟨rfl, rfl⟩

/-- Witness for C7 at `zhr = -5`. -/
theorem spawnVisualRate_clamped_below_witness :
    (-5 : ℚ) ≤ 0 ∧
    (spawnVisualRate jmOne (-5) = 0 ∧
     spawnVisualRate jmOne (-5) = spawnVisualRate jmOne 0) :=
  ⟨by norm_num, spawnVisualRate_clamped_below jmOne (-5) (by norm_num)⟩

/-! ### Claim C5 -/

/-- C5 counterexample: the engine in `src/lib/meteor-animation.ts` applies
no moon factor to its spawn rate — two renders identical except for
`moonIllumination` 0 versus 100 accumulate exactly the same (nonzero)
expected spawn count, so spawning does not strictly decrease in
`moonIllumination` there. -/
theorem lib_spawn_ignores_moon :
    sSpawn.config.moonIllumination = 0 ∧
    sSpawnFullMoon.config.moonIllumination = 100 ∧
    sSpawnFullMoon.config.zhr = sSpawn.config.zhr ∧
    (renderStep jmOne sSpawn 20 r0).spawnAccumulator =
      (renderStep jmOne sSpawnFullMoon 20 r0).spawnAccumulator ∧
    (renderStep jmOne sSpawn 20 r0).spawnAccumulator ≠ 0 := by
  have h1 : (renderStep jmOne sSpawn 20 r0).spawnAccumulator = 43/625 := by
    norm_num [renderStep, renderDt, spawnVisualRate, spawnN, sSpawn, mkEngine,
      cfgMarch, jmOne]
  have h2 : (renderStep jmOne sSpawnFullMoon 20 r0).spawnAccumulator = 43/625 := by
    norm_num [renderStep, renderDt, spawnVisualRate, spawnN, sSpawnFullMoon,
      sSpawn, mkEngine, cfgMarch, jmOne]
  refine ⟨?_, ?_, ?_, ?_, ?_⟩
  · norm_num [sSpawn, mkEngine, cfgMarch]
  · norm_num [sSpawnFullMoon, sSpawn, mkEngine, cfgMarch]
  · norm_num [sSpawnFullMoon, sSpawn, mkEngine, cfgMarch]
  · rw [h1, h2]
  · rw [h1]; norm_num

/-- C5 (amended): in the reference engine
(`reference/meteor-animation.ts`, lines 547–550) the per-frame expected
spawn count is the zhr-derived visual rate multiplied by
`(1 − moonIllumination/100 · 0.25)` and then by elapsed seconds, and —
given that `Math.pow` of a positive base is nonnegative — it strictly
decreases as `moonIllumination` increases, for fixed `zhr > 0` and fixed
positive elapsed time.  The main engine (`src/lib/meteor-animation.ts`)
has no such factor (see the counterexample). -/
theorem refSpawnRate_moon_suppression (jm : JsMath) (zhr m1 m2 dt : ℚ)
    (hpow : 0 ≤ jm.powf (zhr / 150) 0.75) (hz : 0 < zhr) (hdt : 0 < dt)
    (hm : m1 < m2) :
    refSpawnRate jm zhr m1 dt =
      refVisualRate jm zhr * (1 - m1 / 100 * 0.25) * (dt / 1000) ∧
    refSpawnRate jm zhr m2 dt < refSpawnRate jm zhr m1 dt := by
  refine ⟨rfl, ?_⟩
  unfold refSpawnRate refVisualRate
  rw [if_neg (not_le.mpr hz)]
  have hv : (0:ℚ) < 0.15 + 2.5 * jm.powf (zhr / 150) 0.75 := by nlinarith
  have hdt2 : (0:ℚ) < dt / 1000 := by positivity
  have key : 0 < (0.15 + 2.5 * jm.powf (zhr / 150) 0.75) * (dt / 1000) *
      ((m2 - m1) / 400) :=
    mul_pos (mul_pos hv hdt2) (by linarith)
  nlinarith [key]

/-- Witness for C5 at `zhr = 150`, moon 0 versus 100, `dt = 16`. -/
theorem refSpawnRate_moon_suppression_witness :
    0 ≤ jmOne.powf (150 / 150) 0.75 ∧ (0:ℚ) < 150 ∧ (0:ℚ) < 16 ∧
    ((0:ℚ) < 100) ∧
    (refSpawnRate jmOne 150 0 16 =
      refVisualRate jmOne 150 * (1 - 0 / 100 * 0.25) * (16 / 1000) ∧
     refSpawnRate jmOne 150 100 16 < refSpawnRate jmOne 150 0 16) :=
  ⟨by norm_num [jmOne], by norm_num, by norm_num, by norm_num,
   refSpawnRate_moon_suppression jmOne 150 0 100 16 (by norm_num [jmOne])
     (by norm_num) (by norm_num) (by norm_num)⟩

/-! ### Claim C1 -/

/-- Every nebula regeneration produces at least two nebulae, whatever the
random draws. -/
theorem genNebulae_ne_nil (month : ℚ) (r : ℕ → ℚ) (i : ℕ) :
    genNebulae month r i ≠ [] := by
  unfold genNebulae
  rw [show 2 + (⌊r i * 2⌋).toNat = ((⌊r i * 2⌋).toNat + 1) + 1 by omega]
  simp only [genNebulaeAux]
  exact List.cons_ne_nil _ _

/-- C1 counterexample: a `peakMonth` change from March to April stays
within spring, yet `updateConfig` regenerates the nebula population — the
code regenerates on every month change, not only on season changes. -/
theorem updateConfig_regen_within_same_season :
    getSeason 3 = getSeason 4 ∧
    sMarch.config.peakMonth = 3 ∧ pApril.peakMonth = some 4 ∧
    (updateConfigStep sMarch pApril r0).nebulae ≠ sMarch.nebulae := by
  refine ⟨by norm_num [getSeason], by norm_num [sMarch, mkEngine, cfgMarch],
    rfl, ?_⟩
  have hreg : (updateConfigStep sMarch pApril r0).nebulae = genNebulae 4 r0 0 := by
    simp only [updateConfigStep, pApril]
    rw [if_pos (by norm_num [sMarch, mkEngine, cfgMarch])]
    simp [mergeConfig, pApril]
  rw [hreg]
  have : sMarch.nebulae = [] := rfl
  rw [this]
  exact genNebulae_ne_nil 4 r0 0

/-- C1 (amended): `updateConfig` regenerates the nebulae iff the partial
carries a `peakMonth` different from the current one (any month change,
even within the same season); when it does, the new population is drawn
from the palette of the new month's season. -/
theorem updateConfig_nebulae_regen_iff_month_change (s : EngineState)
    (p : PartialConfig) (r : ℕ → ℚ) :
    ((p.peakMonth = none ∨ p.peakMonth = some s.config.peakMonth) →
      (updateConfigStep s p r).nebulae = s.nebulae) ∧
    (∀ v, p.peakMonth = some v → v ≠ s.config.peakMonth →
      (updateConfigStep s p r).nebulae = genNebulae v r 0) := by
  constructor
  · rintro (hp | hp) <;> simp [updateConfigStep, hp]
  · intro v hp hv
    simp [updateConfigStep, hp, hv, mergeConfig]

/-- Witness for C1 (amended) at the March engine and the April partial. -/
theorem updateConfig_nebulae_regen_witness :
    pApril.peakMonth = some 4 ∧ (4:ℚ) ≠ sMarch.config.peakMonth ∧
    (updateConfigStep sMarch pApril r0).nebulae = genNebulae 4 r0 0 :=
  ⟨rfl, by norm_num [sMarch, mkEngine, cfgMarch],
   (updateConfig_nebulae_regen_iff_month_change sMarch pApril r0).2 4 rfl
     (by norm_num [sMarch, mkEngine, cfgMarch])⟩

/-! ### Claim C10 -/

/-- C10: a `updateConfig` call leaves stars, the texture cache, the live
meteors, the spawn accumulator, the mouse target and smoothed position,
the surface size and the time baseline unchanged; it replaces the config
by the merge of the partial and, at most, the nebula list. -/
theorem updateConfig_frame_effect (s : EngineState) (p : PartialConfig)
    (r : ℕ → ℚ) :
    (updateConfigStep s p r).stars = s.stars ∧
    (updateConfigStep s p r).starTextures = s.starTextures ∧
    (updateConfigStep s p r).meteors = s.meteors ∧
    (updateConfigStep s p r).spawnAccumulator = s.spawnAccumulator ∧
    (updateConfigStep s p r).mouseTargetX = s.mouseTargetX ∧
    (updateConfigStep s p r).mouseTargetY = s.mouseTargetY ∧
    (updateConfigStep s p r).mouseX = s.mouseX ∧
    (updateConfigStep s p r).mouseY = s.mouseY ∧
    (updateConfigStep s p r).width = s.width ∧
    (updateConfigStep s p r).height = s.height ∧
    (updateConfigStep s p r).lastTime = s.lastTime ∧
    (updateConfigStep s p r).config = mergeConfig s.config p ∧
    ((updateConfigStep s p r).nebulae = s.nebulae ∨
     (updateConfigStep s p r).nebulae =
       genNebulae (mergeConfig s.config p).peakMonth r 0) := by
  cases hp : p.peakMonth with
  | none =>
    simp only [updateConfigStep, hp]
    simp
  | some v =>
    simp only [updateConfigStep, hp]
    by_cases hv : v ≠ s.config.peakMonth
    · rw [if_pos hv]
      simp
    · rw [if_neg hv]
      simp

/-! ### Claim C9 -/

/-- C9: the frame delta is `min(timestamp − lastTime, 50)` (a fixed 16 ms
when no baseline exists yet, i.e. on the first render call), so the frame
scale `dt/16` never exceeds 50/16 = 3.125 — one render call advances a
meteor's life by exactly the frame scale and its position by the direction
times speed times the frame scale, never more than 3.125 reference-frame
units of either.  `render` then installs the timestamp as new baseline. -/
theorem renderDt_cap (jm : JsMath) (s : EngineState) (ts : ℚ) (r : ℕ → ℚ)
    (hw : s.width ≠ 0) (hh : s.height ≠ 0) :
    (s.lastTime = 0 → renderDt s ts = 16) ∧
    (s.lastTime ≠ 0 → renderDt s ts = min (ts - s.lastTime) 50) ∧
    renderDt s ts / 16 ≤ 3.125 ∧
    (renderStep jm s ts r).lastTime = ts ∧
    (∀ m : Meteor,
      (stepMeteor (renderDt s ts / 16) m).life = m.life + renderDt s ts / 16 ∧
      (stepMeteor (renderDt s ts / 16) m).x =
        m.x + m.dx * m.speed * (renderDt s ts / 16) ∧
      (stepMeteor (renderDt s ts / 16) m).y =
        m.y + m.dy * m.speed * (renderDt s ts / 16)) := by
  refine ⟨?_, ?_, ?_, ?_, fun m => ⟨rfl, rfl, rfl⟩⟩
  · intro h0; unfold renderDt; rw [if_pos h0]
  · intro h0; unfold renderDt; rw [if_neg h0]
  · unfold renderDt
    by_cases h0 : s.lastTime = 0
    · rw [if_pos h0]; norm_num
    · rw [if_neg h0, div_le_iff₀ (by norm_num : (0:ℚ) < 16)]
      calc min (ts - s.lastTime) 50 ≤ 50 := min_le_right _ _
        _ = 3.125 * 16 := by norm_num
  · unfold renderStep
    rw [if_neg (by tauto)]

/-- Witness for C9 at a sized state with baseline 4 and timestamp 20. -/
theorem renderDt_cap_witness :
    sSpawn.width ≠ 0 ∧ sSpawn.height ≠ 0 ∧
    ((sSpawn.lastTime = 0 → renderDt sSpawn 20 = 16) ∧
     (sSpawn.lastTime ≠ 0 → renderDt sSpawn 20 = min (20 - sSpawn.lastTime) 50) ∧
     renderDt sSpawn 20 / 16 ≤ 3.125 ∧
     (renderStep jmOne sSpawn 20 r0).lastTime = 20 ∧
     (∀ m : Meteor,
       (stepMeteor (renderDt sSpawn 20 / 16) m).life =
         m.life + renderDt sSpawn 20 / 16 ∧
       (stepMeteor (renderDt sSpawn 20 / 16) m).x =
         m.x + m.dx * m.speed * (renderDt sSpawn 20 / 16) ∧
       (stepMeteor (renderDt sSpawn 20 / 16) m).y =
         m.y + m.dy * m.speed * (renderDt sSpawn 20 / 16))) :=
  ⟨by norm_num [sSpawn, mkEngine], by norm_num [sSpawn, mkEngine],
   renderDt_cap jmOne sSpawn 20 r0 (by norm_num [sSpawn, mkEngine])
     (by norm_num [sSpawn, mkEngine])⟩

/-! ### Claim C6 -/

/-- C6: after any render call on a sized engine, every meteor that was
drawn and kept (the render loop draws exactly the list it keeps) has life
at most `maxLife` and position within the 100-unit margin of the surface;
and any meteor beyond the margin or beyond its life is not in the kept
list — it is removed in the very render call that would otherwise have
drawn it. -/
theorem meteor_retirement (jm : JsMath) (s : EngineState) (ts : ℚ)
    (r : ℕ → ℚ) (hw : s.width ≠ 0) (hh : s.height ≠ 0) :
    (∀ m ∈ (renderStep jm s ts r).meteors,
      m.life ≤ m.maxLife ∧ -100 ≤ m.x ∧ m.x ≤ s.width + 100 ∧
      -100 ≤ m.y ∧ m.y ≤ s.height + 100) ∧
    (∀ m : Meteor, meteorExpired s.width s.height m = true →
      m ∉ (renderStep jm s ts r).meteors) := by
  have hmet : (renderStep jm s ts r).meteors =
      updateMeteors s.width s.height (renderDt s ts / 16)
        (s.meteors ++ (spawnN jm s.config s.width s.height r 0
          ((⌊s.spawnAccumulator +
             spawnVisualRate jm s.config.zhr * (renderDt s ts / 1000)⌋).toNat)).1) := by
    unfold renderStep
    rw [if_neg (by tauto)]
  constructor
  · intro m hm
    rw [hmet] at hm
    unfold updateMeteors at hm
    rw [List.mem_filter] at hm
    have hdead := hm.2
    simp only [meteorExpired, Bool.not_eq_eq_eq_not, Bool.not_true,
      Bool.or_eq_false_iff, decide_eq_false_iff_not, not_lt] at hdead
    obtain ⟨⟨⟨⟨h1, h2⟩, h3⟩, h4⟩, h5⟩ := hdead
    exact ⟨h5, h1, h2, h3, h4⟩
  · intro m hdead hmem
    rw [hmet] at hmem
    unfold updateMeteors at hmem
    rw [List.mem_filter] at hmem
    have := hmem.2
    rw [hdead] at this
    simp at this

/-- Witness for C6: rendering `sSized` (which carries one live and one
expired meteor) keeps only meteors inside the margin and under their
`maxLife`, and the expired one is gone. -/
theorem meteor_retirement_witness :
    sSized.width ≠ 0 ∧ sSized.height ≠ 0 ∧
    ((∀ m ∈ (renderStep jmOne sSized 20 r0).meteors,
      m.life ≤ m.maxLife ∧ -100 ≤ m.x ∧ m.x ≤ sSized.width + 100 ∧
      -100 ≤ m.y ∧ m.y ≤ sSized.height + 100) ∧
     (∀ m : Meteor, meteorExpired sSized.width sSized.height m = true →
      m ∉ (renderStep jmOne sSized 20 r0).meteors)) :=
  ⟨by norm_num [sSized, mkEngine], by norm_num [sSized, mkEngine],
   meteor_retirement jmOne sSized 20 r0 (by norm_num [sSized, mkEngine])
     (by norm_num [sSized, mkEngine])⟩

/-! ### Claim C4 -/

/-- One engine method call preserves "no meteors, zero accumulator",
provided the config's zhr is nonpositive if the call is a render. -/
theorem engineApply_quiet (jm : JsMath) (s : EngineState) (op : EngineOp)
    (hm : s.meteors = []) (ha : s.spawnAccumulator = 0)
    (hz : ∀ ts r, op = EngineOp.render ts r → s.config.zhr ≤ 0) :
    (engineApply jm s op).meteors = [] ∧
    (engineApply jm s op).spawnAccumulator = 0 := by
  cases op with
  | updateConfig p r =>
    show (updateConfigStep s p r).meteors = [] ∧
      (updateConfigStep s p r).spawnAccumulator = 0
    cases hp : p.peakMonth with
    | none => simp only [updateConfigStep, hp]; exact ⟨hm, ha⟩
    | some v =>
      simp only [updateConfigStep, hp]
      by_cases hv : v ≠ s.config.peakMonth
      · rw [if_pos hv]; exact ⟨hm, ha⟩
      · rw [if_neg hv]; exact ⟨hm, ha⟩
  | setMouse x y => exact ⟨hm, ha⟩
  | setSize w h r =>
    show (setSizeStep s w h r).meteors = [] ∧
      (setSizeStep s w h r).spawnAccumulator = 0
    by_cases hns : s.width = 0 ∧ s.height = 0
    · simp only [setSizeStep, if_pos hns]
      exact ⟨hm, ha⟩
    · simp only [setSizeStep, if_neg hns]
      exact ⟨hm, ha⟩
  | render ts r =>
    have hzr : s.config.zhr ≤ 0 := hz ts r rfl
    show (renderStep jm s ts r).meteors = [] ∧
      (renderStep jm s ts r).spawnAccumulator = 0
    unfold renderStep
    split
    · exact ⟨hm, ha⟩
    · have hrate : spawnVisualRate jm s.config.zhr = 0 := by
        unfold spawnVisualRate
        rw [if_pos hzr]
      rw [hrate, hm, ha]
      norm_num [spawnN, updateMeteors]

/-- The inductive core of C4: along any call sequence whose render calls
all happen at nonpositive zhr, a quiet engine stays quiet at every point. -/
theorem runOps_quiet_aux (jm : JsMath) :
    ∀ (ops : List EngineOp) (s : EngineState),
      s.meteors = [] → s.spawnAccumulator = 0 →
      (∀ l₁ ts r l₂, ops = l₁ ++ EngineOp.render ts r :: l₂ →
        (runOps jm s l₁).config.zhr ≤ 0) →
      ∀ l₁ l₂, ops = l₁ ++ l₂ →
        (runOps jm s l₁).meteors = [] ∧ (runOps jm s l₁).spawnAccumulator = 0
  | [], s, hm, ha, _, l₁, l₂, heq => by
    have hnil : l₁ = [] := by
      cases l₁ with
      | nil => rfl
      | cons x xs => simp at heq
    subst hnil
    exact ⟨hm, ha⟩
  | op :: ops', s, hm, ha, hz, l₁, l₂, heq => by
    cases l₁ with
    | nil => exact ⟨hm, ha⟩
    | cons x xs =>
      rw [List.cons_append] at heq
      injection heq with h1 h2
      subst h1
      have hq := engineApply_quiet jm s op hm ha
        (fun ts r hop => hz [] ts r ops' (by rw [hop]; rfl))
      have hz' : ∀ l₁' ts r l₂', ops' = l₁' ++ EngineOp.render ts r :: l₂' →
          (runOps jm (engineApply jm s op) l₁').config.zhr ≤ 0 := by
        intro l₁' ts r l₂' h
        have hfull := hz (op :: l₁') ts r l₂' (by rw [h]; rfl)
        simpa [runOps, List.foldl_cons] using hfull
      have hrec := runOps_quiet_aux jm ops' (engineApply jm s op)
        hq.1 hq.2 hz' xs l₂ h2
      simpa [runOps, List.foldl_cons] using hrec

/-- C4: an engine whose config has nonpositive zhr at every render call
since construction never spawns a meteor — after every prefix of the call
sequence the live-meteor list is empty and the fractional spawn
accumulator is still 0 (it never crosses the integer threshold). -/
theorem zhr_nonpos_no_meteors (jm : JsMath) (c0 : MeteorConfig)
    (ops : List EngineOp)
    (hz : ∀ l₁ ts r l₂, ops = l₁ ++ EngineOp.render ts r :: l₂ →
      (runOps jm (mkEngine c0) l₁).config.zhr ≤ 0) :
    ∀ l₁ l₂, ops = l₁ ++ l₂ →
      (runOps jm (mkEngine c0) l₁).meteors = [] ∧
      (runOps jm (mkEngine c0) l₁).spawnAccumulator = 0 :=
  runOps_quiet_aux jm ops (mkEngine c0) rfl rfl hz

/-- Witness for C4: a mouse move followed by a render on the quiet March
config leaves the engine meteor-free with a zero accumulator. -/
theorem zhr_nonpos_no_meteors_witness :
    (runOps jmOne (mkEngine cfgMarch)
      [EngineOp.setMouse 1 0, EngineOp.render 5 r0]).meteors = [] ∧
    (runOps jmOne (mkEngine cfgMarch)
      [EngineOp.setMouse 1 0, EngineOp.render 5 r0]).spawnAccumulator = 0 := by
  have h := zhr_nonpos_no_meteors jmOne cfgMarch
    [EngineOp.setMouse 1 0, EngineOp.render 5 r0] ?_
    [EngineOp.setMouse 1 0, EngineOp.render 5 r0] [] (by simp)
  · exact h
  · intro l₁ ts r l₂ heq
    rcases l₁ with _ | ⟨x, _ | ⟨y, rest⟩⟩
    · simp at heq
    · simp only [List.cons_append, List.nil_append, List.cons.injEq] at heq
      obtain ⟨hx, -⟩ := heq
      subst hx
      show (runOps jmOne (mkEngine cfgMarch) [EngineOp.setMouse 1 0]).config.zhr ≤ 0
      norm_num [runOps, engineApply, setMouseStep, mkEngine, cfgMarch]
    · simp only [List.cons_append, List.cons.injEq] at heq
      obtain ⟨-, -, habs⟩ := heq
      exact absurd habs (by simp)

end Yonder
